import Mathlib

/-!
Verification of the RegisterAccessor / memoryaccessor control software.

The Python sources under `src/control/src/` are shallowly embedded here:

* bytearrays become `List Nat` (one entry per byte);
* Python's arbitrary-precision integers become `Nat` where the source value
  is provably non-negative (decoded register values, masks, sizes) and `Int`
  where Python's `~` (bitwise complement) produces negative intermediates;
* exceptions become `Except PyErr` (or an explicit error component where the
  Python code mutates state before raising);
* the transport object (`XDmaAccessor` / `AdxdmaAccessor`) is modelled by its
  interface: a connection flag plus read/write functions that may fail;
* instance attributes mutated in place (`register.value`,
  `register.timeLastRead`, `self.polled_registers`) become explicit state
  passed in and returned;
* the Python string methods used by the source (`str.split`, `str.lower`,
  `"/".join`, single-character `in`) are re-implemented over `String.data`
  so that every definition evaluates inside the kernel; each helper is a
  direct structural transcription of the Python behaviour on the ASCII
  strings the register maps contain.
-/

namespace RegisterAccessor

/-! ### Python string primitives -/

/-- Python `str.lower()` (ASCII range, which covers the attribute values and
policy names the source compares). -/
def strLower (s : String) : String := ⟨s.data.map Char.toLower⟩

/-- Python `c in s` for a single-character needle `c` (the source only ever
tests one-character needles: `"r" in ...`, `"w" in ...`, `"/" in path`). -/
def strContainsChar (s : String) (c : Char) : Bool := s.data.contains c

/-- Helper for `strSplitOn`: split a character list on a separator.
`splitOnChar c []` is `[[]]`, matching Python `"".split(sep) == ['']`. -/
def splitOnChar (sep : Char) : List Char → List (List Char)
  | [] => [[]]
  | x :: xs =>
    match splitOnChar sep xs with
    | [] => [[]]
    | g :: gs => if x = sep then [] :: g :: gs else (x :: g) :: gs

/-- Python `s.split(sep)` for a one-character separator. -/
def strSplitOn (s : String) (sep : Char) : List String :=
  (splitOnChar sep s.data).map String.mk

/-- Python `sep.join(parts)`. -/
def strJoin (sep : String) : List String → String
  | [] => ""
  | [x] => x
  | x :: xs => x ++ sep ++ strJoin sep xs

/-! ### Core data model (`RegisterAccessor/controller.py`) -/

/-- A bytearray: one `Nat` per byte, least significant byte first
(`sys.byteorder` is little-endian on every platform this runs on). -/
abbrev Bytes := List Nat

/-- `int.from_bytes(value, sys.byteorder)`: little-endian decoding of a
bytearray into a non-negative integer.  The empty bytearray decodes to 0. -/
def fromBytesLE : Bytes → Nat
  | [] => 0
  | b :: bs => b + 256 * fromBytesLE bs

/-- Python exceptions raised by the embedded code. -/
inductive PyErr where
  | controllerError (msg : String)
  | typeError (msg : String)
  | keyError (k : String)
  | valueError (msg : String)
  | attributeError (msg : String)
  | accessorError (msg : String)
  | registerMapError (msg : String)
deriving DecidableEq

/-- The loop of `_get_bitwise_trailing_zeros`: Python's
`while v > 0: v >>= 1; c += 1` counts the bit length of `v`.  Each
iteration halves `v`, so the loop runs `v.log2 + 1 ≤ v` times for `v > 0`;
the translation passes the start value of `v` as structural fuel, which is
therefore always sufficient, and keeps the body verbatim. -/
def tzLoop : Nat → Nat → Nat
  | 0, _ => 0
  | _, 0 => 0
  | fuel + 1, v + 1 => tzLoop fuel ((v + 1) >>> 1) + 1

/-- `_get_bitwise_trailing_zeros(val)` from `controller.py`: the number of
trailing zero bits of `val`, computed as the bit length of
`v = (val ^ (val - 1)) >> 1`.  Every call site passes a bit-field mask,
which is non-negative, so the function is translated over `Nat`; for
`val = 0` Python's loop body never runs (there `v = -1 < 0`) and the result
is 0, which the `Nat` translation also returns (`0 ^^^ (0 - 1) = 0` over
`Nat`). -/
def get_bitwise_trailing_zeros (val : Nat) : Nat :=
  let v := (val ^^^ (val - 1)) >>> 1
  tzLoop v v

/-- The `BitField` dataclass: name, description, permission, mask, and the
`read`/`write` booleans derived in `Memory.__post_init__` by a (single
character) substring test on the lower-cased permission string. -/
structure BitField where
  name : String
  desc : String
  permission : String
  read : Bool
  write : Bool
  mask : Nat
deriving DecidableEq

/-- `BitField(name, desc, permission, mask)` construction including the
`Memory.__post_init__` defaulting (a `None` description or permission is
replaced by the dataclass default) and `read`/`write` derivation. -/
def mkBitField (name : String) (desc : Option String) (permission : Option String)
    (mask : Nat) : BitField :=
  let permission := permission.getD "r"
  { name
    desc := desc.getD "No Description Provided"
    permission
    read := strContainsChar (strLower permission) 'r'
    write := strContainsChar (strLower permission) 'w'
    mask }

/-- The `Register` dataclass from `RegisterAccessor/controller.py`:
address, byte size, cached value, poll timestamp, bit fields, and the
`fullPath` rewritten by `Register.__post_init__`.  `name` is `Option String`
because the dataclass field has no default, so a missing `id` attribute
leaves it as Python `None`. -/
structure Register where
  name : Option String
  desc : String
  permission : String
  read : Bool
  write : Bool
  addr : Nat
  size : Nat
  bitFields : Option (List (String × BitField))
  fullPath : Option String
  timeLastRead : Nat
  value : Bytes
deriving DecidableEq

/-- `Register(...)` construction including `Memory.__post_init__` (defaults
and `read`/`write` derivation) and `Register.__post_init__`: the stored
`fullPath` drops the first `.`-separated component of the `absolute_id`
attribute and joins the rest with `/`; when that leaves nothing the
register's own name is used (which is Python `None` if the name is
missing). -/
def mkRegister (name : Option String) (desc : Option String) (permission : Option String)
    (addr : Nat) (size : Nat) (bitFields : Option (List (String × BitField)))
    (fullPath : Option String) : Register :=
  let permission := permission.getD "r"
  let fp0 := fullPath.getD ""
  let parts := (strSplitOn fp0 '.').drop 1
  { name
    desc := desc.getD "No Description Provided"
    permission
    read := strContainsChar (strLower permission) 'r'
    write := strContainsChar (strLower permission) 'w'
    addr
    size
    bitFields
    fullPath := if parts = [] then name else some (strJoin "/" parts)
    timeLastRead := 0
    value := [] }

/-- The transport capability (`XDmaAccessor`/`AdxdmaAccessor`) as consumed by
the controller: connection flag, `read(addr, size)` and `write(addr, data)`,
each of which may raise. -/
structure Accessor where
  isConnected : Bool
  readFn : Nat → Nat → Except PyErr Bytes
  writeFn : Nat → Bytes → Except PyErr Unit

/-! ### Bit-field read and write -/

/-- `RegisterAccessorController.read_field`: decode the cached bytes, mask,
and shift right by the mask's trailing-zero count.  All quantities are
non-negative, so this is a `Nat` computation exactly as in Python. -/
def read_field (register : Register) (field : BitField) : Nat :=
  let val := fromBytesLE register.value
  let mask := field.mask
  let shift := get_bitwise_trailing_zeros mask
  (val &&& mask) >>> shift

/-- The register value computed by `RegisterAccessorController.write_field`
before it is handed to `write_register`.  The Python source is

  start_val = int.from_bytes(register.value, sys.byteorder) & (~mask)
  write_val = start_val & ((value << shift) & mask)

`~mask` is negative, so the computation is embedded over `Int` with
Mathlib's two's-complement `Int.land`/`Int.lnot`. -/
def write_field_val (value : Nat) (regval : Nat) (mask : Nat) : Int :=
  let shift := get_bitwise_trailing_zeros mask
  let start_val : Int := Int.land (regval : Int) (Int.lnot (mask : Int))
  Int.land start_val (Int.land ((value : Int) <<< ((shift : Nat) : Int)) (mask : Int))

/-- The merged value described by the specification of `write_field`
(§4.3: `merged = cleared | ((value << shift) & field.mask)`).  Modelled from
the spec's words, for comparison with `write_field_val` above, which is the
value the source actually computes (`&` in place of `|`). -/
def write_field_merged_spec (value : Nat) (regval : Nat) (mask : Nat) : Int :=
  let shift := get_bitwise_trailing_zeros mask
  let cleared : Int := Int.land (regval : Int) (Int.lnot (mask : Int))
  Int.lor cleared (Int.land ((value : Int) <<< ((shift : Nat) : Int)) (mask : Int))

/-- `RegisterAccessorController.write_field`: computes `write_val` and then
executes `self.write_register(write_val)`.  `write_register` is declared as
`def write_register(self, value, register)`: the call site omits the
required `register` argument, so Python raises `TypeError` before any
transport write happens. -/
def write_field (value : Nat) (register : Register) (field : BitField) :
    Except PyErr Unit :=
  let write_val := write_field_val value (fromBytesLE register.value) field.mask
  let _ := write_val
  .error (.typeError "write_register() missing 1 required positional argument: 'register'")

/-! ### Python dictionaries as ordered association lists -/

/-- `d.get(k)` on a Python dict (also `d[k]` when combined with an explicit
`KeyError` at the call site): the value bound to the first — and, by the
`dictSet` discipline below, only — occurrence of the key. -/
def dictGet {κ α : Type} [DecidableEq κ] : List (κ × α) → κ → Option α
  | [], _ => none
  | (k', v') :: rest, k => if k' = k then some v' else dictGet rest k

/-- `d[k] = v` on a Python dict: replace the value at an existing key in
place, else append the new binding (insertion order is preserved). -/
def dictSet {κ α : Type} [DecidableEq κ] : List (κ × α) → κ → α → List (κ × α)
  | [], k, v => [(k, v)]
  | (k', v') :: rest, k, v =>
    if k' = k then (k, v) :: rest else (k', v') :: dictSet rest k v

/-- `d.update(d2)` on Python dicts: insert every binding of `d2`, in order,
into `d`, overwriting values at keys that already exist. -/
def dictUpdate {κ α : Type} [DecidableEq κ] (d d2 : List (κ × α)) : List (κ × α) :=
  d2.foldl (fun acc kv => dictSet acc kv.1 kv.2) d

/-- Python `str(x)` for an optional string, as used when a register name is
interpolated into an error message (`str(None)` is `"None"`). -/
def pyStrOpt : Option String → String
  | some s => s
  | none => "None"

/-! ### Register read/write operations
(`RegisterAccessorController.static_reg_read`, `immediate_reg_read`,
`write_register`, and `MemoryAccessorController.write_register`).
Each takes the accessor and, where the source resolves an integer address
through `self.registers`, the register dictionary; the possibly updated
register object is returned (in the source the update happens in place). -/

/-- `RegisterAccessorController.static_reg_read`: fetch from the transport
only when the cached bytearray is empty and the transport is connected;
always return the decoded cached value afterwards. -/
def static_reg_read (register : Register) (acc : Accessor) :
    Except PyErr (Nat × Register) :=
  if register.value.isEmpty && acc.isConnected then
    match acc.readFn register.addr register.size with
    | .error e => .error e
    | .ok v => .ok (fromBytesLE v, { register with value := v })
  else
    .ok (fromBytesLE register.value, register)

/-- `RegisterAccessorController.immediate_reg_read`: resolve an integer
address through the register dictionary, refuse unreadable registers, fetch
from the transport only when connected, and decode whatever the cache then
holds. -/
def immediate_reg_read (register : Register ⊕ Nat)
    (registers : List (Nat × Register)) (acc : Accessor) :
    Except PyErr (Nat × Register) :=
  let reg? : Except PyErr Register :=
    match register with
    | .inl r => .ok r
    | .inr a =>
      match dictGet registers a with
      | some r => .ok r
      | none => .error (.controllerError "Unable to read Address: Not found in Register map")
  match reg? with
  | .error e => .error e
  | .ok reg =>
    if reg.read then
      if acc.isConnected then
        match acc.readFn reg.addr reg.size with
        | .error e => .error e
        | .ok v => .ok (fromBytesLE v, { reg with value := v })
      else
        .ok (fromBytesLE reg.value, reg)
    else
      .error (.controllerError
        ("Unable to read Register " ++ pyStrOpt reg.name ++ ": Register not readable"))

/-- `RegisterAccessorController.write_register`: requires `writable` and a
connected transport; issues the transport write, then — only if the register
is also readable — re-reads it from hardware into the cache.  A write-only
register's cache is left untouched.  The failure message interpolates
`register.name`, the *parameter*, which raises `AttributeError` when the
register was passed as an integer address. -/
def write_register (value : Bytes) (register : Register ⊕ Nat)
    (registers : List (Nat × Register)) (acc : Accessor) : Except PyErr Register :=
  let reg? : Except PyErr Register :=
    match register with
    | .inl r => .ok r
    | .inr a =>
      match dictGet registers a with
      | some r => .ok r
      | none => .error (.controllerError "Unable to read Address: Not found in Register map")
  match reg? with
  | .error e => .error e
  | .ok reg =>
    if reg.write && acc.isConnected then
      match acc.writeFn reg.addr value with
      | .error e => .error e
      | .ok _ =>
        if reg.read then
          match acc.readFn reg.addr reg.size with
          | .error e => .error e
          | .ok v => .ok { reg with value := v }
        else
          .ok reg
    else
      match register with
      | .inl r =>
        .error (.controllerError
          ("Unable to write to Register " ++ pyStrOpt r.name ++ ": " ++
            (if r.write then "Not Connected" else "Register not writeable")))
      | .inr _ => .error (.attributeError "'int' object has no attribute 'name'")

/-- `MemoryAccessorController.write_register` (from
`memoryaccessor/controller.py`): same gate as above, but the cache is set to
the written bytes unconditionally and the register is never re-read. -/
def mem_write_register (value : Bytes) (register : Register ⊕ Nat)
    (registers : List (Nat × Register)) (acc : Accessor) : Except PyErr Register :=
  let reg? : Except PyErr Register :=
    match register with
    | .inl r => .ok r
    | .inr a =>
      match dictGet registers a with
      | some r => .ok r
      | none => .error (.controllerError "Unable to read Address: Not found in Register map")
  match reg? with
  | .error e => .error e
  | .ok reg =>
    if reg.write && acc.isConnected then
      match acc.writeFn reg.addr value with
      | .error e => .error e
      | .ok _ => .ok { reg with value := value }
    else
      match register with
      | .inl r =>
        .error (.controllerError
          ("Unable to write to Register " ++ pyStrOpt r.name ++ ": " ++
            (if r.write then "Not Connected" else "Register not writeable")))
      | .inr _ => .error (.attributeError "'int' object has no attribute 'name'")

/-- A sequence of `static_reg_read` calls against the same register with no
intervening write, one accessor state (connection flag and transport
response) per call.  Returns the final register and the number of transport
fetches the sequence issued; a fetch is issued exactly when the cache is
empty and the transport is connected, as in `static_reg_read`. -/
def staticRun (reg : Register) : List Accessor → Except PyErr (Register × Nat)
  | [] => .ok (reg, 0)
  | acc :: rest =>
    let fetched := reg.value.isEmpty && acc.isConnected
    match static_reg_read reg acc with
    | .error e => .error e
    | .ok (_, reg') =>
      match staticRun reg' rest with
      | .error e => .error e
      | .ok (rf, n) => .ok (rf, (if fetched then 1 else 0) + n)

/-! ### Bridge lemmas: the `Int` bitwise operations on non-negative operands
reduce to the kernel-accelerated `Nat` operations. -/

theorem nat_ldiff_eq_xor_land (a b : Nat) : Nat.ldiff a b = a ^^^ (a &&& b) :=
  Nat.eq_of_testBit_eq fun i => by
    rw [Nat.testBit_ldiff, Nat.testBit_xor, Nat.testBit_and]
    cases a.testBit i <;> cases b.testBit i <;> rfl

theorem int_land_lnot_coe (a b : Nat) :
    Int.land (a : Int) (Int.lnot (b : Int)) = ((a ^^^ (a &&& b) : Nat) : Int) := by
  rw [show Int.land (a : Int) (Int.lnot (b : Int)) = ((Nat.ldiff a b : Nat) : Int) from rfl,
    nat_ldiff_eq_xor_land]

theorem int_land_coe (a b : Nat) : Int.land (a : Int) (b : Int) = ((a &&& b : Nat) : Int) := rfl

theorem int_lor_coe (a b : Nat) : Int.lor (a : Int) (b : Int) = ((a ||| b : Nat) : Int) := rfl

theorem int_shiftLeft_coe (a s : Nat) :
    (a : Int) <<< ((s : Nat) : Int) = ((a <<< s : Nat) : Int) := by
  rw [show (a : Int) <<< ((s : Nat) : Int) = (Nat.shiftLeft' false a s : Int) from rfl,
    Nat.shiftLeft'_false]

/-- C1.  The claim says `write_field` computes
`merged = (a & ~mask) | ((f << shift) & mask)` and passes it to the register
write, so that a subsequent `read_field` returns `f`'s masked low bits and
bits outside `mask` are untouched.  The source instead computes
`start_val & ((f << shift) & mask)` — a bitwise AND of two bit-disjoint
values — and then calls `write_register` without its required `register`
argument.  At cached value `a = 0xFF`, `mask = 0x0F`, `f = 5`: the code's
value is `0` while the claim's merged value is `0xF5`, and the call raises
`TypeError`. -/
theorem C1_write_field_code_divergence :
    write_field_val 5 255 15 = 0 ∧
    write_field_merged_spec 5 255 15 = 245 ∧
    write_field 5
        { mkRegister (some "ctrl") none (some "rw") 0 4 none none with value := [255] }
        (mkBitField "mode" none (some "rw") 15) =
      .error (.typeError "write_register() missing 1 required positional argument: 'register'") :=
  ⟨by
    simp only [write_field_val]
    rw [int_land_lnot_coe, int_shiftLeft_coe, int_land_coe, int_land_coe]
    decide,
   by
    simp only [write_field_merged_spec]
    rw [int_land_lnot_coe, int_shiftLeft_coe, int_land_coe, int_lor_coe]
    decide,
   rfl⟩

/-- Once the cached bytearray is non-empty, a run of static reads never
touches the transport and never changes the register. -/
theorem staticRun_of_nonempty (reg : Register) (h : reg.value ≠ []) :
    ∀ accs : List Accessor, staticRun reg accs = .ok (reg, 0) := by
  intro accs
  induction accs with
  | nil => rfl
  | cons a rest ih =>
    have hne : reg.value.isEmpty = false := by
      cases hv : reg.value with
      | nil => exact absurd hv h
      | cons x xs => rfl
    simp [staticRun, static_reg_read, hne, ih]

/-- C5 (amended).  With the transport disconnected, an immediate-policy read
of a readable register returns the decoded cached value (0 for an empty
cache) and raises nothing, while a write to a *writable* register raises the
controller's "Not Connected" error.  (A non-writable register instead gets
the "Register not writeable" message, which is what forces the amendment.) -/
theorem C5_disconnected_read_cached_write_raises
    (reg : Register) (registers : List (Nat × Register)) (acc : Accessor) (v : Bytes)
    (hconn : acc.isConnected = false) :
    (reg.read = true →
      immediate_reg_read (.inl reg) registers acc = .ok (fromBytesLE reg.value, reg) ∧
      (reg.value = [] → immediate_reg_read (.inl reg) registers acc = .ok (0, reg))) ∧
    (reg.write = true →
      write_register v (.inl reg) registers acc =
        .error (.controllerError
          ("Unable to write to Register " ++ pyStrOpt reg.name ++ ": " ++ "Not Connected"))) := by
  constructor
  · intro hr
    constructor
    · simp [immediate_reg_read, hr, hconn]
    · intro hv
      simp [immediate_reg_read, hr, hconn, hv, fromBytesLE]
  · intro hw
    simp [write_register, hconn, hw]

/-- Witness for `C5_disconnected_read_cached_write_raises` at a concrete
readable-and-writable register with cached bytes `[5]` and a disconnected
accessor. -/
theorem C5_disconnected_witness :
    (immediate_reg_read
        (.inl { name := some "stat", desc := "d", permission := "rw", read := true,
                write := true, addr := 0, size := 4, bitFields := none,
                fullPath := some "stat", timeLastRead := 0, value := [5] })
        []
        { isConnected := false, readFn := fun _ _ => .ok [1], writeFn := fun _ _ => .ok () } =
      .ok (fromBytesLE [5],
        { name := some "stat", desc := "d", permission := "rw", read := true,
          write := true, addr := 0, size := 4, bitFields := none,
          fullPath := some "stat", timeLastRead := 0, value := [5] })) ∧
    (write_register [9]
        (.inl { name := some "stat", desc := "d", permission := "rw", read := true,
                write := true, addr := 0, size := 4, bitFields := none,
                fullPath := some "stat", timeLastRead := 0, value := [5] })
        []
        { isConnected := false, readFn := fun _ _ => .ok [1], writeFn := fun _ _ => .ok () } =
      .error (.controllerError
        ("Unable to write to Register " ++
          pyStrOpt (some "stat") ++ ": " ++ "Not Connected"))) :=
  ⟨((C5_disconnected_read_cached_write_raises _ [] _ [9] rfl).1 rfl).1,
    (C5_disconnected_read_cached_write_raises _ [] _ [9] rfl).2 rfl⟩

/-- C5 counterexample.  The claim says that, disconnected, "writing to any
register raises the not-connected access error"; but for a register without
write permission the source raises the "Register not writeable" message
instead, connected or not. -/
theorem C5_counterexample_readonly_write_error :
    write_register [1]
        (.inl { name := some "ro", desc := "d", permission := "r", read := true,
                write := false, addr := 0, size := 4, bitFields := none,
                fullPath := some "ro", timeLastRead := 0, value := [] })
        []
        { isConnected := false, readFn := fun _ _ => .ok [1], writeFn := fun _ _ => .ok () } =
      .error (.controllerError "Unable to write to Register ro: Register not writeable") ∧
    (PyErr.controllerError "Unable to write to Register ro: Register not writeable" ≠
      PyErr.controllerError "Unable to write to Register ro: Not Connected") :=
  ⟨rfl, by decide⟩

/-- C8 (amended).  A successful connected write to a writable register:
if the register is readable the cache afterwards holds the bytes re-read
from hardware; if it is *not* readable, `RegisterAccessorController` leaves
the cache unchanged (it does not store the written bytes);
`MemoryAccessorController` instead always stores the written bytes and never
re-reads. -/
theorem C8_write_cache_behaviour
    (reg : Register) (registers : List (Nat × Register)) (acc : Accessor) (v b : Bytes)
    (hw : reg.write = true) (hc : acc.isConnected = true)
    (hwr : acc.writeFn reg.addr v = .ok ()) :
    (reg.read = true → acc.readFn reg.addr reg.size = .ok b →
      write_register v (.inl reg) registers acc = .ok { reg with value := b }) ∧
    (reg.read = false → write_register v (.inl reg) registers acc = .ok reg) ∧
    mem_write_register v (.inl reg) registers acc = .ok { reg with value := v } := by
  refine ⟨fun hr hb => ?_, fun hr => ?_, ?_⟩ <;>
    simp [write_register, mem_write_register, hw, hc, hwr, *]

/-- Witness for `C8_write_cache_behaviour`: a readable-writable register on a
connected transport whose read returns `[3, 0, 0, 0]`. -/
theorem C8_write_cache_witness :
    write_register [7]
        (.inl { name := some "rw", desc := "d", permission := "rw", read := true,
                write := true, addr := 4, size := 4, bitFields := none,
                fullPath := some "rw", timeLastRead := 0, value := [] })
        []
        { isConnected := true, readFn := fun _ _ => .ok [3, 0, 0, 0],
          writeFn := fun _ _ => .ok () } =
      .ok { name := some "rw", desc := "d", permission := "rw", read := true,
            write := true, addr := 4, size := 4, bitFields := none,
            fullPath := some "rw", timeLastRead := 0, value := [3, 0, 0, 0] } :=
  (C8_write_cache_behaviour _ [] _ [7] [3, 0, 0, 0] rfl rfl rfl).1 rfl rfl

/-- C8 counterexample.  For a write-only register the claim says the written
bytes become the new cache; the source's `write_register` leaves the cache
unchanged (empty), so after writing `[7]` the cache is `[]`, not `[7]`. -/
theorem C8_counterexample_writeonly_cache :
    write_register [7]
        (.inl { name := some "wo", desc := "d", permission := "w", read := false,
                write := true, addr := 0, size := 4, bitFields := none,
                fullPath := some "wo", timeLastRead := 0, value := [] })
        []
        { isConnected := true, readFn := fun _ _ => .ok [3, 0, 0, 0],
          writeFn := fun _ _ => .ok () } =
      .ok { name := some "wo", desc := "d", permission := "w", read := false,
            write := true, addr := 0, size := 4, bitFields := none,
            fullPath := some "wo", timeLastRead := 0, value := [] } ∧
    ([] : Bytes) ≠ [7] :=
  ⟨rfl, by decide⟩

/-- C9.  Starting from an empty cache, any sequence of static reads with no
intervening write issues at most one transport fetch, provided the transport
returns a non-empty byte string (it always returns `size ≥ 4` bytes for the
maps' word-aligned registers): the first read made while connected fetches
and fills the cache, after which every further read takes the cached
branch. -/
theorem C9_static_reads_at_most_one_fetch
    (reg : Register) (accs : List Accessor)
    (h0 : reg.value = [])
    (hread : ∀ acc ∈ accs, ∃ b, acc.readFn reg.addr reg.size = .ok b ∧ b ≠ []) :
    ∃ rf n, staticRun reg accs = .ok (rf, n) ∧ n ≤ 1 := by
  induction accs with
  | nil => exact ⟨reg, 0, rfl, by decide⟩
  | cons a rest ih =>
    cases hc : a.isConnected with
    | false =>
      obtain ⟨rf, n, hrun, hn⟩ := ih fun acc hm => hread acc (List.mem_cons_of_mem _ hm)
      refine ⟨rf, n, ?_, hn⟩
      simp [staticRun, static_reg_read, h0, hc, hrun]
    | true =>
      obtain ⟨b, hb, hbne⟩ := hread a (List.mem_cons_self _ _)
      have h2 : staticRun { reg with value := b } rest = .ok ({ reg with value := b }, 0) :=
        staticRun_of_nonempty _ (by simpa using hbne) rest
      refine ⟨{ reg with value := b }, 1, ?_, le_refl 1⟩
      simp [staticRun, static_reg_read, h0, hc, hb, h2]

/-- Witness for `C9_static_reads_at_most_one_fetch`: two consecutive static
reads on a connected transport that answers `[1, 0, 0, 0]`. -/
theorem C9_static_reads_witness :
    ∃ rf n,
      staticRun
        { name := some "bid", desc := "d", permission := "r", read := true,
          write := false, addr := 8, size := 4, bitFields := none,
          fullPath := some "bid", timeLastRead := 0, value := [] }
        [{ isConnected := true, readFn := fun _ _ => .ok [1, 0, 0, 0],
           writeFn := fun _ _ => .ok () },
         { isConnected := true, readFn := fun _ _ => .ok [1, 0, 0, 0],
           writeFn := fun _ _ => .ok () }] = .ok (rf, n) ∧ n ≤ 1 :=
  C9_static_reads_at_most_one_fetch _ _ rfl
    (by
      intro acc hm
      simp only [List.mem_cons, List.mem_singleton] at hm
      rcases hm with rfl | rfl | h
      · exact ⟨[1, 0, 0, 0], rfl, by decide⟩
      · exact ⟨[1, 0, 0, 0], rfl, by decide⟩
      · cases h)

/-! ### Access-policy resolution
(`create_reg_paramTree`, `create_read_access_param`, and the polled-register
bookkeeping plus `PeriodicCallback` start-up from `__init__`). -/

/-- A JSON value inside a policy-overwrite entry: the recognised keys carry a
string (`"policy"`) or an integer (`"frequency"`). -/
inductive PolVal where
  | s (v : String)
  | n (v : Nat)
deriving DecidableEq

/-- One entry of the policy-overwrite JSON document: a Python dict, so an
ordered association list.  Python truthiness of a dict is non-emptiness. -/
abbrev PolicyDict := List (String × PolVal)

/-- The read-accessor kind installed in the parameter tree for a register by
`create_read_access_param`: a `partial(immediate_reg_read, ...)`, a
`partial(static_reg_read, ...)`, or the polled-policy lambda that only
decodes the cached bytearray. -/
inductive ReadAccess where
  | immediate
  | staticOnce
  | polledCache
deriving DecidableEq

/-- The policy-dict selection at the top of
`RegisterAccessorController.create_reg_paramTree`:

  reg_policy = {}
  if reg.fullPath in overwrites or reg.name in overwrites:
      reg_policy = overwrites.get(reg.name) or overwrites.get(reg.fullPath)

`x or y` takes `x` when it is truthy (a non-empty dict) and `y` otherwise —
including `y = None`, which the result type records as `none` (the source
would then crash unpacking `**None`).  A `None` name or fullPath is never a
key of the string-keyed document. -/
def select_reg_policy (overwrites : List (String × PolicyDict)) (reg : Register) :
    Option PolicyDict :=
  let fpLook := match reg.fullPath with
    | some fp => dictGet overwrites fp
    | none => none
  let nameLook := match reg.name with
    | some nm => dictGet overwrites nm
    | none => none
  if fpLook.isSome || nameLook.isSome then
    match nameLook with
    | some d => if d = [] then fpLook else some d
    | none => fpLook
  else
    some []

/-- `RegisterAccessorController.create_read_access_param`: resolve the policy
string (`kwargs.get("policy", self.access_policy)`) and the frequency
(`kwargs.get("frequency", self.poll_rate)`), lower-case the policy and
dispatch.  The polled branch records
`self.polled_registers[reg.addr] = frequency` — with no lower bound applied.
A non-string policy value makes Python's `policy.lower()` raise
`AttributeError`; a non-integer frequency would be stored and only explode
later in `math.gcd`, which this model surfaces as the error at extraction
(no claim exercises that path). -/
def create_read_access_param (access_policy : String) (poll_rate : Nat)
    (reg : Register) (kwargs : PolicyDict) (polled : List (Nat × Nat)) :
    Except PyErr (ReadAccess × List (Nat × Nat)) :=
  let policyE : Except PyErr String :=
    match dictGet kwargs "policy" with
    | none => .ok access_policy
    | some (.s v) => .ok v
    | some (.n _) => .error (.attributeError "'int' object has no attribute 'lower'")
  let freqE : Except PyErr Nat :=
    match dictGet kwargs "frequency" with
    | none => .ok poll_rate
    | some (.n v) => .ok v
    | some (.s _) => .error (.typeError "unsupported operand type(s) for gcd")
  match policyE, freqE with
  | .error e, _ => .error e
  | .ok _, .error e => .error e
  | .ok policy, .ok frequency =>
    let pl := strLower policy
    if pl = "immediate" ∨ pl = "direct" then
      .ok (.immediate, polled)
    else if pl = "static" ∨ pl = "once" then
      .ok (.staticOnce, polled)
    else if pl = "polled" ∨ pl = "looped" then
      .ok (.polledCache, dictSet polled reg.addr frequency)
    else
      .error (.controllerError
        ("Access Policy '" ++ policy ++ "' not recognised for register"))

/-- The slice of the per-register parameter-tree dictionary built by
`create_reg_paramTree` that the claims observe: the kind of read accessor
installed on `value`, whether a write accessor is installed, and the
`address` entry.  (The bit-field sub-entries and metadata dicts contain no
failure paths and no polled-register bookkeeping, so they are not
modelled.) -/
structure RegParamEntry where
  readAccess : ReadAccess
  writable : Bool
  address : Nat
deriving DecidableEq

/-- The controller configuration consumed while building the tree:
`self.access_policy`, `self.poll_rate` and `self.access_policy_overwrites`. -/
structure Config where
  access_policy : String
  poll_rate : Nat
  overwrites : List (String × PolicyDict)

/-- `RegisterAccessorController.create_reg_paramTree`: select the overwrite
entry for this register, then build the value accessor via
`create_read_access_param(reg, **reg_policy)` (threading the
polled-register dictionary).  When the selection produced Python `None`,
the `**None` unpacking raises `TypeError`. -/
def create_reg_paramTree (cfg : Config) (reg : Register) (polled : List (Nat × Nat)) :
    Except PyErr (RegParamEntry × List (Nat × Nat)) :=
  match select_reg_policy cfg.overwrites reg with
  | none => .error (.typeError "argument of type 'NoneType' is not a mapping")
  | some reg_policy =>
    match create_read_access_param cfg.access_policy cfg.poll_rate reg reg_policy polled with
    | .error e => .error e
    | .ok (ra, polled') =>
      .ok ({ readAccess := ra, writable := reg.write, address := reg.addr }, polled')

/-- `math.gcd(*all_freq)`: left fold of `gcd` over the argument list, with
`math.gcd()` (no arguments) returning 0. -/
def gcdList (l : List Nat) : Nat := l.foldl Nat.gcd 0

/-- `poll_freq = math.gcd(*list(self.polled_registers.values()))` from
`__init__`. -/
def poll_freq_of (polled : List (Nat × Nat)) : Nat := gcdList (polled.map Prod.snd)

/-- The state of a `tornado.ioloop.PeriodicCallback`: its interval in
milliseconds and whether `start()` has been called. -/
structure PeriodicCallbackInit where
  callback_time : Nat
  started : Bool
deriving DecidableEq

/-- `PeriodicCallback(self.polling_loop, callback_time)`: tornado's
constructor raises `ValueError("Periodic callback must have a positive
callback_time")` whenever `callback_time <= 0` (over `Nat`: whenever it is
0); otherwise the callback is created un-started. -/
def mkPeriodicCallback (callback_time : Nat) : Except PyErr PeriodicCallbackInit :=
  if callback_time = 0 then
    .error (.valueError "Periodic callback must have a positive callback_time")
  else
    .ok { callback_time := callback_time, started := false }

/-- `PeriodicCallback.start()`. -/
def startPeriodicCallback (cb : PeriodicCallbackInit) : PeriodicCallbackInit :=
  { cb with started := true }

/-- Lines 144–150 of `RegisterAccessor/controller.py`: the source
unconditionally executes
`self.background_polling = PeriodicCallback(self.polling_loop, poll_freq)`
followed by `self.background_polling.start()` — there is no emptiness
check, so with no polled registers `poll_freq = math.gcd() = 0` and the
constructor's `ValueError` escapes `__init__`: startup fails and `.start()`
is never reached. -/
def init_polling (polled : List (Nat × Nat)) : Except PyErr PeriodicCallbackInit :=
  match mkPeriodicCallback (poll_freq_of polled) with
  | .error e => .error e
  | .ok cb => .ok (startPeriodicCallback cb)

/-- `RegisterAccessorController.polling_loop`'s inner `for` loop over
`self.polled_registers.items()`.  Each due register (`timeLastRead + freq <
timestamp`) is fetched and its cache and timestamp updated *in place*; the
body has no exception handling, so a failing fetch escapes the loop — the
function returns the registers updated so far together with the escaping
error. -/
def polling_loop_iter (readFn : Nat → Nat → Except PyErr Bytes) (timestamp : Nat) :
    List (Nat × Nat) → List (Nat × Register) → List (Nat × Register) × Option PyErr
  | [], regs => (regs, none)
  | (addr, freq) :: rest, regs =>
    match dictGet regs addr with
    | none => (regs, some (.keyError "polled address not in self.registers"))
    | some reg =>
      if reg.timeLastRead + freq < timestamp then
        match readFn reg.addr reg.size with
        | .error e => (regs, some e)
        | .ok v =>
          polling_loop_iter readFn timestamp rest
            (dictSet regs addr { reg with value := v, timeLastRead := timestamp })
      else
        polling_loop_iter readFn timestamp rest regs

/-- `RegisterAccessorController.polling_loop`: a no-op unless the transport
is connected. -/
def polling_loop (acc : Accessor) (timestamp : Nat) (polled : List (Nat × Nat))
    (registers : List (Nat × Register)) : List (Nat × Register) × Option PyErr :=
  if acc.isConnected then polling_loop_iter acc.readFn timestamp polled registers
  else (registers, none)

/-! ### Theorems for the policy, scheduler and polling claims -/

theorem dictGet_dictSet {κ α : Type} [DecidableEq κ] (d : List (κ × α)) (k : κ) (v : α) :
    dictGet (dictSet d k v) k = some v := by
  induction d with
  | nil => simp [dictSet, dictGet]
  | cons hd tl ih =>
    obtain ⟨k', v'⟩ := hd
    by_cases h : k' = k <;> simp [dictSet, dictGet, h, ih]

/-- `gcdList l` divides every member of `l`. -/
theorem gcdList_dvd_mem (l : List Nat) : ∀ x ∈ l, gcdList l ∣ x := by
  suffices h : ∀ (l : List Nat) (acc : Nat),
      (∀ x ∈ l, List.foldl Nat.gcd acc l ∣ x) ∧ List.foldl Nat.gcd acc l ∣ acc by
    exact (h l 0).1
  intro l
  induction l with
  | nil => exact fun acc => ⟨by simp, dvd_refl acc⟩
  | cons a t ih =>
    intro acc
    obtain ⟨ht, hacc⟩ := ih (Nat.gcd acc a)
    refine ⟨?_, hacc.trans (Nat.gcd_dvd_left acc a)⟩
    intro x hx
    rcases List.mem_cons.mp hx with rfl | hx
    · exact hacc.trans (Nat.gcd_dvd_right acc x)
    · exact ht x hx

/-- Any common divisor of the members of `l` divides `gcdList l`. -/
theorem dvd_gcdList (l : List Nat) (d : Nat) (h : ∀ x ∈ l, d ∣ x) : d ∣ gcdList l := by
  suffices hgen : ∀ (l : List Nat) (acc : Nat), d ∣ acc → (∀ x ∈ l, d ∣ x) →
      d ∣ List.foldl Nat.gcd acc l by
    exact hgen l 0 (dvd_zero d) h
  intro l
  induction l with
  | nil => exact fun acc hacc _ => hacc
  | cons a t ih =>
    intro acc hacc hmem
    exact ih (Nat.gcd acc a)
      (Nat.dvd_gcd hacc (hmem a (List.mem_cons_self a t)))
      (fun x hx => hmem x (List.mem_cons_of_mem a hx))

/-- C10.  When both the register's bare name and its full slash-path occur
as keys of the policy-overwrite document, the name-keyed dict is the one
applied; the path-keyed dict is used exactly when the name-keyed one is
falsy (the empty dict). -/
theorem C10_name_key_overrides_path_key
    (overwrites : List (String × PolicyDict)) (reg : Register)
    (nm fp : String) (dn dp : PolicyDict)
    (hnm : reg.name = some nm) (hfp : reg.fullPath = some fp)
    (hn : dictGet overwrites nm = some dn) (hf : dictGet overwrites fp = some dp) :
    select_reg_policy overwrites reg = some (if dn = [] then dp else dn) := by
  by_cases hd : dn = [] <;> simp [select_reg_policy, hnm, hfp, hn, hf, hd]

/-- Witness for `C10_name_key_overrides_path_key`: a register named `r1` at
path `grp/r1`, with a truthy name-keyed entry and a different path-keyed
entry; the name-keyed entry is selected. -/
theorem C10_name_key_witness :
    select_reg_policy
        [("r1", [("policy", PolVal.s "static")]),
         ("grp/r1", [("policy", PolVal.s "polled")])]
        { name := some "r1", desc := "d", permission := "r", read := true,
          write := false, addr := 0, size := 4, bitFields := none,
          fullPath := some "grp/r1", timeLastRead := 0, value := [] } =
      some [("policy", PolVal.s "static")] := by
  have h := C10_name_key_overrides_path_key
    [("r1", [("policy", PolVal.s "static")]),
     ("grp/r1", [("policy", PolVal.s "polled")])]
    { name := some "r1", desc := "d", permission := "r", read := true,
      write := false, addr := 0, size := 4, bitFields := none,
      fullPath := some "grp/r1", timeLastRead := 0, value := [] }
    "r1" "grp/r1" [("policy", PolVal.s "static")] [("policy", PolVal.s "polled")]
    rfl rfl rfl rfl
  simpa using h

/-- C3 (amended).  Attaching a register under the polled/looped policy
records, for the scheduler, exactly the configured frequency (or the global
default when the overwrite carries none) — the source applies no 100 ms
floor. -/
theorem C3_effective_interval_no_floor
    (access_policy : String) (poll_rate : Nat) (reg : Register)
    (kwargs : PolicyDict) (polled : List (Nat × Nat)) (p : String)
    (hp : dictGet kwargs "policy" = some (PolVal.s p))
    (hl : strLower p = "polled" ∨ strLower p = "looped")
    (hnum : ∀ s, dictGet kwargs "frequency" ≠ some (PolVal.s s)) :
    ∃ f, (dictGet kwargs "frequency" = some (PolVal.n f) ∨
          (dictGet kwargs "frequency" = none ∧ f = poll_rate)) ∧
      create_read_access_param access_policy poll_rate reg kwargs polled =
        .ok (.polledCache, dictSet polled reg.addr f) ∧
      dictGet (dictSet polled reg.addr f) reg.addr = some f := by
  have hfreq : ∃ f, dictGet kwargs "frequency" = some (PolVal.n f) ∨
      (dictGet kwargs "frequency" = none ∧ f = poll_rate) := by
    cases hkf : dictGet kwargs "frequency" with
    | none => exact ⟨poll_rate, Or.inr ⟨rfl, rfl⟩⟩
    | some v =>
      cases v with
      | s sv => exact absurd hkf (hnum sv)
      | n nv => exact ⟨nv, Or.inl rfl⟩
  obtain ⟨f, hf⟩ := hfreq
  refine ⟨f, hf, ?_, dictGet_dictSet polled reg.addr f⟩
  rcases hl with hl | hl <;>
    rcases hf with hf | ⟨hf, rfl⟩ <;>
      simp [create_read_access_param, hp, hf, hl]

/-- Witness for `C3_effective_interval_no_floor`: an overwrite entry with
policy `"Polled"` and frequency 50 ms records exactly 50 ms. -/
theorem C3_no_floor_witness :
    ∃ f, (dictGet [("policy", PolVal.s "Polled"), ("frequency", PolVal.n 50)]
            "frequency" = some (PolVal.n f) ∨
          (dictGet [("policy", PolVal.s "Polled"), ("frequency", PolVal.n 50)]
            "frequency" = none ∧ f = 1000)) ∧
      create_read_access_param "static" 1000
          { name := some "p50", desc := "d", permission := "r", read := true,
            write := false, addr := 12, size := 4, bitFields := none,
            fullPath := some "p50", timeLastRead := 0, value := [] }
          [("policy", PolVal.s "Polled"), ("frequency", PolVal.n 50)] [] =
        .ok (.polledCache,
          dictSet []
            ({ name := some "p50", desc := "d", permission := "r", read := true,
               write := false, addr := 12, size := 4, bitFields := none,
               fullPath := some "p50", timeLastRead := 0,
               value := [] } : Register).addr f) ∧
      dictGet
          (dictSet []
            ({ name := some "p50", desc := "d", permission := "r", read := true,
               write := false, addr := 12, size := 4, bitFields := none,
               fullPath := some "p50", timeLastRead := 0,
               value := [] } : Register).addr f)
          ({ name := some "p50", desc := "d", permission := "r", read := true,
             write := false, addr := 12, size := 4, bitFields := none,
             fullPath := some "p50", timeLastRead := 0,
             value := [] } : Register).addr = some f :=
  C3_effective_interval_no_floor "static" 1000
    { name := some "p50", desc := "d", permission := "r", read := true,
      write := false, addr := 12, size := 4, bitFields := none,
      fullPath := some "p50", timeLastRead := 0, value := [] }
    [("policy", PolVal.s "Polled"), ("frequency", PolVal.n 50)] [] "Polled" rfl
    (Or.inl (by decide))
    (fun s h => by simp [dictGet] at h)

/-- C3 counterexample.  The claim says a requested 50 ms interval resolves
to exactly 100 ms; the source records 50 ms for the scheduler. -/
theorem C3_counterexample_fifty_stays_fifty :
    create_read_access_param "static" 1000
        { name := some "fast", desc := "d", permission := "r", read := true,
          write := false, addr := 16, size := 4, bitFields := none,
          fullPath := some "fast", timeLastRead := 0, value := [] }
        [("policy", PolVal.s "polled"), ("frequency", PolVal.n 50)] [] =
      .ok (.polledCache, [(16, 50)]) ∧ (50 : Nat) ≠ 100 :=
  ⟨rfl, by decide⟩

/-- C4 (amended).  When the gcd of the recorded polled intervals is
positive, startup completes: the scheduler is started and its wake interval
is exactly that gcd (it divides every recorded interval and every common
divisor divides it).  When the gcd is 0 — in particular whenever the polled
set is empty, since `math.gcd()` is 0 — the `PeriodicCallback` constructor
raises `ValueError`, so startup itself fails: the scheduler is indeed never
started, but because `__init__` crashes, not because an empty polled set is
gracefully skipped. -/
theorem C4_wake_interval_gcd_or_startup_error (polled : List (Nat × Nat)) :
    (poll_freq_of polled ≠ 0 →
      ∃ cb, init_polling polled = .ok cb ∧
        cb.started = true ∧
        cb.callback_time = poll_freq_of polled ∧
        (∀ p ∈ polled, cb.callback_time ∣ p.2) ∧
        (∀ d : Nat, (∀ p ∈ polled, d ∣ p.2) → d ∣ cb.callback_time)) ∧
    (poll_freq_of polled = 0 →
      init_polling polled =
        .error (.valueError "Periodic callback must have a positive callback_time")) := by
  constructor
  · intro hne
    refine ⟨{ callback_time := poll_freq_of polled, started := true }, ?_, rfl, rfl, ?_, ?_⟩
    · simp [init_polling, mkPeriodicCallback, startPeriodicCallback, hne]
    · intro p hp
      exact gcdList_dvd_mem (polled.map Prod.snd) p.2 (List.mem_map_of_mem Prod.snd hp)
    · intro d hd
      refine dvd_gcdList (polled.map Prod.snd) d ?_
      intro x hx
      obtain ⟨p, hp, rfl⟩ := List.mem_map.mp hx
      exact hd p hp
  · intro hz
    simp [init_polling, mkPeriodicCallback, hz]

/-- Witness for `C4_wake_interval_gcd_or_startup_error`: with polled
intervals 600 ms and 400 ms startup succeeds with a started callback whose
interval is the gcd of the recorded intervals. -/
theorem C4_wake_interval_witness :
    ∃ cb, init_polling [(0, 600), (4, 400)] = .ok cb ∧
      cb.started = true ∧
      cb.callback_time = poll_freq_of [(0, 600), (4, 400)] ∧
      (∀ p ∈ [(0, 600), (4, 400)], cb.callback_time ∣ p.2) ∧
      (∀ d : Nat, (∀ p ∈ [(0, 600), (4, 400)], d ∣ p.2) → d ∣ cb.callback_time) :=
  (C4_wake_interval_gcd_or_startup_error [(0, 600), (4, 400)]).1 (by decide)

/-- C4 counterexample.  With no polled registers the claim describes a
completed startup in which the scheduler is simply not started; instead
`math.gcd() = 0` and the `PeriodicCallback` constructor raises
`ValueError`, so startup fails before any scheduler state exists. -/
theorem C4_counterexample_empty_raises_valueerror :
    init_polling [] =
      .error (.valueError "Periodic callback must have a positive callback_time") ∧
    poll_freq_of [] = 0 :=
  ⟨rfl, rfl⟩

/-- C6 (amended).  When the transport fetch for a due register fails, the
exception escapes `polling_loop`'s `for` loop: the tick stops there, with
the registers updated so far kept but the failing register and every
register after it in the iteration left untouched for that tick. -/
theorem C6_failed_fetch_aborts_tick
    (readFn : Nat → Nat → Except PyErr Bytes) (timestamp : Nat)
    (rest : List (Nat × Nat)) (regs : List (Nat × Register))
    (addr freq : Nat) (reg : Register) (e : PyErr)
    (hreg : dictGet regs addr = some reg)
    (hdue : reg.timeLastRead + freq < timestamp)
    (herr : readFn reg.addr reg.size = .error e) :
    polling_loop_iter readFn timestamp ((addr, freq) :: rest) regs = (regs, some e) := by
  simp [polling_loop_iter, hreg, hdue, herr]

/-- Witness for `C6_failed_fetch_aborts_tick`: two due registers; the fetch
of the first (address 0) fails, so the tick returns immediately with the
register dictionary unchanged. -/
theorem C6_failed_fetch_witness :
    polling_loop_iter
        (fun a _ => if a = 0 then .error (.accessorError "DEVICE NOT CONNECTED")
                    else .ok [9, 0, 0, 0])
        1000 [(0, 10), (4, 10)]
        [(0, { name := some "a", desc := "d", permission := "r", read := true,
               write := false, addr := 0, size := 4, bitFields := none,
               fullPath := some "a", timeLastRead := 0, value := [] }),
         (4, { name := some "b", desc := "d", permission := "r", read := true,
               write := false, addr := 4, size := 4, bitFields := none,
               fullPath := some "b", timeLastRead := 0, value := [] })] =
      ([(0, { name := some "a", desc := "d", permission := "r", read := true,
              write := false, addr := 0, size := 4, bitFields := none,
              fullPath := some "a", timeLastRead := 0, value := [] }),
        (4, { name := some "b", desc := "d", permission := "r", read := true,
              write := false, addr := 4, size := 4, bitFields := none,
              fullPath := some "b", timeLastRead := 0, value := [] })],
       some (.accessorError "DEVICE NOT CONNECTED")) :=
  C6_failed_fetch_aborts_tick _ 1000 [(4, 10)] _ 0 10 _ (.accessorError "DEVICE NOT CONNECTED")
    rfl (by decide) rfl

/-- C6 counterexample.  The claim says that after one register's fetch fails
every other due register is still fetched and updated in that tick; here
register 4 is due (`0 + 10 < 1000`) yet after the tick its cached value is
still empty and its `timeLastRead` still 0, because the failure on register
0 aborted the loop. -/
theorem C6_counterexample_second_register_not_updated :
    (polling_loop
        { isConnected := true,
          readFn := fun a _ => if a = 0 then .error (.accessorError "fetch failed")
                               else .ok [9, 0, 0, 0],
          writeFn := fun _ _ => .ok () }
        1000 [(0, 10), (4, 10)]
        [(0, { name := some "a", desc := "d", permission := "r", read := true,
               write := false, addr := 0, size := 4, bitFields := none,
               fullPath := some "a", timeLastRead := 0, value := [] }),
         (4, { name := some "b", desc := "d", permission := "r", read := true,
               write := false, addr := 4, size := 4, bitFields := none,
               fullPath := some "b", timeLastRead := 0, value := [] })]).1 =
      [(0, { name := some "a", desc := "d", permission := "r", read := true,
             write := false, addr := 0, size := 4, bitFields := none,
             fullPath := some "a", timeLastRead := 0, value := [] }),
       (4, { name := some "b", desc := "d", permission := "r", read := true,
             write := false, addr := 4, size := 4, bitFields := none,
             fullPath := some "b", timeLastRead := 0, value := [] })] ∧
    (0 + 10 < 1000) ∧
    (([] : Bytes) ≠ [9, 0, 0, 0] ∧ (0 : Nat) ≠ 1000) :=
  ⟨rfl, by decide, by decide, by decide⟩

/-! ### The XML map loader
(`RegisterAccessorController.__init__` / `parseRegisterElement`). -/

/-- An `xml.etree.ElementTree` element as the parser consumes it: its
attribute dictionary and its child elements. -/
inductive XElem where
  | mk (attrib : List (String × String)) (children : List XElem)

def XElem.attrib : XElem → List (String × String)
  | .mk a _ => a

def XElem.children : XElem → List XElem
  | .mk _ c => c

/-- Attribute key constants from `controller.py`. -/
def NAME_KEY : String := "id"
def FULLNAME_KEY : String := "absolute_id"
def ADDR_KEY : String := "absolute_offset"
def DESC_KEY : String := "description"
def PERM_KEY : String := "permission"
def MASK_KEY : String := "mask"
def SIZE_KEY : String := "size"

/-- Value of a hexadecimal digit character. -/
def hexDigitVal (c : Char) : Option Nat :=
  if '0' ≤ c ∧ c ≤ '9' then some (c.toNat - 48)
  else if 'a' ≤ c ∧ c ≤ 'f' then some (c.toNat - 87)
  else if 'A' ≤ c ∧ c ≤ 'F' then some (c.toNat - 55)
  else none

/-- Value of a decimal digit character. -/
def decDigitVal (c : Char) : Option Nat :=
  if '0' ≤ c ∧ c ≤ '9' then some (c.toNat - 48) else none

/-- Accumulate digit characters into a number; `none` on the first
non-digit. -/
def parseDigits (base : Nat) (digit : Char → Option Nat) : List Char → Nat → Option Nat
  | [], acc => some acc
  | c :: cs, acc =>
    match digit c with
    | some d => parseDigits base digit cs (acc * base + d)
    | none => none

/-- Python `int(s, 16)` on the plain (optionally `0x`-prefixed) hexadecimal
strings the register maps carry; `none` models the `ValueError` raised for
an empty or non-hexadecimal string.  (Python's additional tolerance for
whitespace, sign and underscores is not exercised by any map document.) -/
def pyIntBase16 (s : String) : Option Nat :=
  let cs := match s.data with
    | '0' :: 'x' :: rest => rest
    | '0' :: 'X' :: rest => rest
    | cs => cs
  match cs with
  | [] => none
  | _ => parseDigits 16 hexDigitVal cs 0

/-- Python `int(s)` on plain decimal strings, same caveats as above. -/
def pyIntBase10 (s : String) : Option Nat :=
  match s.data with
  | [] => none
  | cs => parseDigits 10 decDigitVal cs 0

/-- The `Register(...)` construction shared by both branches of
`parseRegisterElement`: `int(info.get(ADDR_KEY), 16)` raises `TypeError`
when the attribute is absent (`int(None, 16)`) and `ValueError` when it is
not hexadecimal; `int(info.get(SIZE_KEY, 1))` defaults to one 32-bit word
and the stored size is `words * 4` bytes. -/
def regFromInfo (info : List (String × String))
    (bitFields : Option (List (String × BitField))) : Except PyErr Register :=
  match dictGet info ADDR_KEY with
  | none => .error (.typeError "int() can't convert NoneType with explicit base")
  | some addrStr =>
    match pyIntBase16 addrStr with
    | none => .error (.valueError "invalid literal for int() with base 16")
    | some addr =>
      let sizeE : Except PyErr Nat :=
        match dictGet info SIZE_KEY with
        | none => .ok 1
        | some sz =>
          match pyIntBase10 sz with
          | some n => .ok n
          | none => .error (.valueError "invalid literal for int() with base 10")
      match sizeE with
      | .error e => .error e
      | .ok sz =>
        .ok (mkRegister (dictGet info NAME_KEY) (dictGet info DESC_KEY)
          (dictGet info PERM_KEY) addr (sz * 4) bitFields (dictGet info FULLNAME_KEY))

/-- One iteration of the bit-field loop of `parseRegisterElement`:
`bitField_info[NAME_KEY]` and `bitField_info[MASK_KEY]` raise `KeyError`
when absent; the permission defaults to `"r"` at the `get` call. -/
def bitFieldFromInfo (bi : List (String × String)) : Except PyErr (String × BitField) :=
  match dictGet bi NAME_KEY with
  | none => .error (.keyError NAME_KEY)
  | some nm =>
    match dictGet bi MASK_KEY with
    | none => .error (.keyError MASK_KEY)
    | some ms =>
      match pyIntBase16 ms with
      | none => .error (.valueError "invalid literal for int() with base 16")
      | some mask =>
        .ok (nm, mkBitField nm (dictGet bi DESC_KEY)
          (some ((dictGet bi PERM_KEY).getD "r")) mask)

/-- The `for bitField in element` loop building `field_dict` (a dict keyed
by field name; duplicate names overwrite). -/
def parseBitFields : List XElem → List (String × BitField) →
    Except PyErr (List (String × BitField))
  | [], fd => .ok fd
  | e :: es, fd =>
    match bitFieldFromInfo e.attrib with
    | .error err => .error err
    | .ok (nm, bit) => parseBitFields es (dictSet fd nm bit)

mutual

/-- `RegisterAccessorController.parseRegisterElement`.  A childless element
is a register; an element whose first child carries a `mask`, no `address`,
and the same `absolute_offset` as the parent (both defaulted to `"0"`) is a
register with bit fields; any other element is a namespace whose children
are parsed recursively.  The returned dictionary is keyed by register
address — a register whose address equals an earlier sibling's silently
replaces it via `dict.update`; no duplicate check exists.  The parameter
tree entries built by `create_reg_paramTree` are threaded only for their
polled-register bookkeeping and their possible exceptions. -/
def parseRegisterElement (cfg : Config) : XElem → List (Nat × Nat) →
    Except PyErr (List (Nat × Register) × List (Nat × Nat))
  | .mk info [], polled =>
    match regFromInfo info none with
    | .error e => .error e
    | .ok reg =>
      match create_reg_paramTree cfg reg polled with
      | .error e => .error e
      | .ok (_, polled') => .ok ([(reg.addr, reg)], polled')
  | .mk info (first :: others), polled =>
    let fc := first.attrib
    if (dictGet fc MASK_KEY).isSome ∧ ¬(dictGet fc "address").isSome ∧
        (dictGet fc ADDR_KEY).getD "0" = (dictGet info ADDR_KEY).getD "0" then
      match parseBitFields (first :: others) [] with
      | .error e => .error e
      | .ok fd =>
        match regFromInfo info (some fd) with
        | .error e => .error e
        | .ok reg =>
          match create_reg_paramTree cfg reg polled with
          | .error e => .error e
          | .ok (_, polled') => .ok ([(reg.addr, reg)], polled')
    else
      parseRegisterChildren cfg (first :: others) [] polled

/-- The `for reg in element: reg_dict.update(parseRegisterElement(...))`
loop of the namespace branch (also the register-map loop in `__init__`). -/
def parseRegisterChildren (cfg : Config) : List XElem → List (Nat × Register) →
    List (Nat × Nat) → Except PyErr (List (Nat × Register) × List (Nat × Nat))
  | [], acc, polled => .ok (acc, polled)
  | e :: es, acc, polled =>
    match parseRegisterElement cfg e polled with
    | .error err => .error err
    | .ok (d, polled') => parseRegisterChildren cfg es (dictUpdate acc d) polled'

end

/-- The register-map construction in `RegisterAccessorController.__init__`:
`self.registers` starts empty and is `update`d with the parse of every child
of the document root, threading `self.polled_registers`. -/
def load_registers (cfg : Config) (root : XElem) :
    Except PyErr (List (Nat × Register) × List (Nat × Nat)) :=
  parseRegisterChildren cfg root.children [] []

/-- C2 (amended).  Loading a document in which two registers carry the same
address does *not* fail: the register parsed later silently replaces the
earlier one in the address-keyed dictionary, so the loaded dictionary has
distinct keys only because the duplicate register was dropped. -/
theorem C2_duplicate_addresses_not_rejected
    (pr : Nat) (n1 n2 s : String) (a : Nat) (hs : pyIntBase16 s = some a) :
    load_registers ⟨"static", pr, []⟩
        (.mk [("id", "root")]
          [.mk [("id", n1), ("absolute_offset", s)] [],
           .mk [("id", n2), ("absolute_offset", s)] []]) =
      .ok ([(a, mkRegister (some n2) none none a 4 none none)], []) := by
  simp [load_registers, parseRegisterChildren, parseRegisterElement, regFromInfo,
    create_reg_paramTree, select_reg_policy, create_read_access_param, dictGet, dictSet,
    dictUpdate, hs, mkRegister, strLower, strContainsChar, strSplitOn, splitOnChar,
    XElem.attrib, XElem.children, NAME_KEY, ADDR_KEY, DESC_KEY, PERM_KEY, SIZE_KEY,
    FULLNAME_KEY, MASK_KEY]

/-- Witness for `C2_duplicate_addresses_not_rejected`: registers `regA` and
`regB` both at `0x20` load without error and only `regB` survives. -/
theorem C2_duplicate_addresses_witness :
    load_registers ⟨"static", 1000, []⟩
        (.mk [("id", "root")]
          [.mk [("id", "regA"), ("absolute_offset", "0x20")] [],
           .mk [("id", "regB"), ("absolute_offset", "0x20")] []]) =
      .ok ([(32, mkRegister (some "regB") none none 32 4 none none)], []) :=
  C2_duplicate_addresses_not_rejected 1000 "regA" "regB" "0x20" 32 (by decide)

/-- C2 counterexample.  The claim says loading fails whenever two registers
in the document carry the same address; this document carries `regA` and
`regB` both at `0x10`, yet loading succeeds (no error is raised) and
returns a dictionary holding only the second register. -/
theorem C2_counterexample_duplicate_load_succeeds :
    load_registers ⟨"static", 1000, []⟩
        (.mk [("id", "root")]
          [.mk [("id", "regA"), ("absolute_offset", "0x10"), ("permission", "rw"),
                ("absolute_id", "top.regA")] [],
           .mk [("id", "regB"), ("absolute_offset", "0x10"), ("permission", "r"),
                ("absolute_id", "top.regB")] []]) =
      .ok ([(16, mkRegister (some "regB") none (some "r") 16 4 none
              (some "top.regB"))], []) := by
  simp [load_registers, parseRegisterChildren, parseRegisterElement, regFromInfo,
    create_reg_paramTree, select_reg_policy, create_read_access_param, dictGet, dictSet,
    dictUpdate, pyIntBase16, parseDigits, hexDigitVal, mkRegister, strLower,
    strContainsChar, strSplitOn, splitOnChar, strJoin, XElem.attrib, XElem.children,
    NAME_KEY, ADDR_KEY, DESC_KEY, PERM_KEY, SIZE_KEY, FULLNAME_KEY, MASK_KEY]

/-! ### The lookup service (`RegisterMap.py`)
`RegisterMap.py` carries its own `Register` dataclass (name-keyed tree,
policy and poll-frequency fields, bit fields as a list); its `getReg` is the
path/name resolution the spec's Lookup Service describes. -/

/-- The `Register` dataclass of `RegisterMap.py`. -/
structure RMRegister where
  name : Option String
  desc : String
  permission : String
  read : Bool
  write : Bool
  addr : Nat
  size : Nat
  bitFields : List BitField
  policy : String
  poll_freq : Nat
  timeLastRead : Nat
  value : Bytes
deriving DecidableEq

/-- A node of the loaded map: either a `Register` leaf or a dict of named
children (`dict[str, Register | dict]`). -/
inductive RNode where
  | reg (r : RMRegister)
  | node (children : List (String × RNode))

/-- The `for path in split_path` loop of `RegisterMap.getReg`'s exact-path
branch.  Per iteration the source runs

  if isinstance(subMap, dict): subMap = subMap[path]   # KeyError → RegisterMapError
  if isinstance(subMap, Register): yield subMap

so once `subMap` has become a Register, every remaining segment skips the
dict lookup (no existence check) and yields the same register again.  The
generator's yields are collected eagerly; an escaping `RegisterMapError`
discards them, as it does for any consumer that drains the generator. -/
def getRegPathLoop : RNode → List String → Except PyErr (List RMRegister)
  | _, [] => .ok []
  | .node cs, p :: rest =>
    match dictGet cs p with
    | none => .error (.registerMapError ("Invalid Path: " ++ p))
    | some m =>
      match m with
      | .reg r =>
        match getRegPathLoop m rest with
        | .error e => .error e
        | .ok tail => .ok (r :: tail)
      | .node _ => getRegPathLoop m rest
  | .reg r, _ :: rest =>
    match getRegPathLoop (.reg r) rest with
    | .error e => .error e
    | .ok tail => .ok (r :: tail)

mutual

/-- The bare-name branch of `RegisterMap.getReg` restricted to one value of
the tree: yield the value when its key matches and it is a Register, and
recurse into every dict value. -/
def getRegByNameNode (path : String) : RNode → List RMRegister
  | .reg _ => []
  | .node cs => getRegByNameList path cs

/-- The `for k, v in subMap.items()` loop of the bare-name branch. -/
def getRegByNameList (path : String) : List (String × RNode) → List RMRegister
  | [] => []
  | (k, v) :: rest =>
    (if k = path then (match v with | .reg r => [r] | .node _ => []) else []) ++
    (match v with | .node _ => getRegByNameNode path v | .reg _ => []) ++
    getRegByNameList path rest

end

/-- `RegisterMap.getReg`: a path containing `/` is split (one trailing empty
segment dropped) and resolved segment by segment; a bare name fans out over
the whole tree. -/
def getReg (path : String) (map : RNode) : Except PyErr (List RMRegister) :=
  if strContainsChar path '/' then
    let split_path := strSplitOn path '/'
    let split_path := if split_path.getLast? = some "" then split_path.dropLast
                      else split_path
    getRegPathLoop map split_path
  else
    match map with
    | .node cs => .ok (getRegByNameList path cs)
    | .reg _ => .error (.attributeError "'Register' object has no attribute 'items'")

/-- C7 (amended).  Exact-path resolution validates segments only while it is
still descending dicts: a segment missing from a dict raises
`RegisterMapError("Invalid Path: ...")`, but as soon as a segment resolves
to a Register the descent stops consuming the tree — the register is
yielded once for that segment and once more for every remaining segment,
none of which is checked for existence.  A non-terminal Register therefore
does not fail, and the resolution can yield the same register many times. -/
theorem C7_register_ends_descent
    :
    (∀ (r : RMRegister) (segs : List String),
      getRegPathLoop (.reg r) segs = .ok (List.replicate segs.length r)) ∧
    (∀ (cs : List (String × RNode)) (p : String) (rest : List String),
      dictGet cs p = none →
      getRegPathLoop (.node cs) (p :: rest) =
        .error (.registerMapError ("Invalid Path: " ++ p))) ∧
    (∀ (cs : List (String × RNode)) (p : String) (rest : List String) (r : RMRegister),
      dictGet cs p = some (.reg r) →
      getRegPathLoop (.node cs) (p :: rest) =
        .ok (List.replicate (rest.length + 1) r)) := by
  have hrep : ∀ (r : RMRegister) (segs : List String),
      getRegPathLoop (.reg r) segs = .ok (List.replicate segs.length r) := by
    intro r segs
    induction segs with
    | nil => rfl
    | cons p rest ih => simp [getRegPathLoop, ih, List.replicate]
  refine ⟨hrep, ?_, ?_⟩
  · intro cs p rest h
    simp [getRegPathLoop, h]
  · intro cs p rest r h
    simp [getRegPathLoop, h, hrep r rest, List.replicate]

/-- Witness for `C7_register_ends_descent`: a map `{a: Register}` resolved
against segments `["a", "x", "y"]` yields the register three times, with the
bogus segments `x`, `y` never checked. -/
theorem C7_register_ends_descent_witness :
    getRegPathLoop
        (.node [("a", .reg { name := some "a", desc := "d", permission := "r",
                             read := true, write := false, addr := 0, size := 4,
                             bitFields := [], policy := "", poll_freq := 0,
                             timeLastRead := 0, value := [] })])
        ["a", "x", "y"] =
      .ok (List.replicate 3
        { name := some "a", desc := "d", permission := "r", read := true,
          write := false, addr := 0, size := 4, bitFields := [], policy := "",
          poll_freq := 0, timeLastRead := 0, value := [] }) :=
  (C7_register_ends_descent).2.2
    [("a", .reg { name := some "a", desc := "d", permission := "r", read := true,
                  write := false, addr := 0, size := 4, bitFields := [], policy := "",
                  poll_freq := 0, timeLastRead := 0, value := [] })]
    "a" ["x", "y"]
    { name := some "a", desc := "d", permission := "r", read := true,
      write := false, addr := 0, size := 4, bitFields := [], policy := "",
      poll_freq := 0, timeLastRead := 0, value := [] }
    rfl

/-- C7 counterexample.  For the path `"a/b"` over the map `{a: Register}`,
the claim demands failure (the non-terminal segment `a` is a Register) and
in any case at most one yielded register; the source instead succeeds and
yields the register twice. -/
theorem C7_counterexample_nonterminal_register :
    getReg "a/b"
        (.node [("a", .reg { name := some "a", desc := "d", permission := "r",
                             read := true, write := false, addr := 8, size := 4,
                             bitFields := [], policy := "", poll_freq := 0,
                             timeLastRead := 0, value := [] })]) =
      .ok [{ name := some "a", desc := "d", permission := "r", read := true,
             write := false, addr := 8, size := 4, bitFields := [], policy := "",
             poll_freq := 0, timeLastRead := 0, value := [] },
           { name := some "a", desc := "d", permission := "r", read := true,
             write := false, addr := 8, size := 4, bitFields := [], policy := "",
             poll_freq := 0, timeLastRead := 0, value := [] }] ∧
    ¬([{ name := some "a", desc := "d", permission := "r", read := true,
         write := false, addr := 8, size := 4, bitFields := [], policy := "",
         poll_freq := 0, timeLastRead := 0, value := ([] : Bytes) },
       { name := some "a", desc := "d", permission := "r", read := true,
         write := false, addr := 8, size := 4, bitFields := [], policy := "",
         poll_freq := 0, timeLastRead := 0, value := [] }] : List RMRegister).length ≤ 1 := by
  constructor
  · simp [getReg, strContainsChar, strSplitOn, splitOnChar, getRegPathLoop, dictGet]
  · decide

end RegisterAccessor
